import Mathlib

/-!
Shallow embedding of the pyghmi IPMI session layer, SOL console engine and
SDR reader (pyghmi/ipmi/private/simplesession.py, pyghmi/ipmi/console.py,
pyghmi/ipmi/sdr.py), together with theorems settling the spec claims.

Bytes are modelled as `Nat` (Python ints), byte strings as `List Nat`,
timeouts as `Rat` (the code only adds constants and compares), and the
observable effects of a call (bytes handed to the iohandler, payloads handed
to the network layer, callback invocations) as explicit event lists.
Randomness (`random.random()`) is an explicit parameter where the code
draws it.
-/

namespace Pyghmi

/-- Little-endian 32-bit encoding, as produced by struct.pack of format <I. -/
def le32 (n : Nat) : List Nat :=
  [n % 256, n / 256 % 256, n / 65536 % 256, n / 16777216 % 256]

/-- Little-endian 32-bit decoding of four bytes, as struct.unpack of format <I. -/
def leRead32 (bs : List Nat) : Nat :=
  bs.getD 0 0 + bs.getD 1 0 * 256 + bs.getD 2 0 * 65536 + bs.getD 3 0 * 16777216

/-- Embedding of `_aespad` (simplesession.py lines 81-97): computes the
AES-CBC pad for `data`, the bytes 1,2,...,N followed by the pad-length
byte N, where N makes `len(data) + 1 + N` a multiple of 16. -/
def aespad (data : List Nat) : List Nat :=
  let currlen := data.length + 1
  let neededpad0 := currlen % 16
  let neededpad := if neededpad0 ≠ 0 then 16 - neededpad0 else neededpad0
  ((List.range neededpad).map (fun i => i + 1)) ++ [neededpad]

/-! ### SOL console model (pyghmi/ipmi/console.py, class Console) -/

/-- Element of `Console.pendingoutput`: either a text chunk or the break
marker dict `{break: 1}`. -/
inductive QElem
  | chunk (data : List Nat)
  | brk
deriving DecidableEq

/-- Observable effect of console code: bytes delivered to the iohandler
(`_print_data` with raw bytes), info dict, error dict, or a payload handed
to `ipmi_session.send_payload`. -/
inductive CEvent
  | bytesOut (bytes : List Nat)
  | info (msg : String)
  | errorOut (msg : String)
  | xmit (payload : List Nat)
deriving DecidableEq

/-- The mutable state of a `Console` object (console.py `__init__`,
lines 44-74, plus the attributes assigned during activation). `attached`
models `ipmi_session is not None` (the back reference that `_print_error`
severs). -/
structure ConsoleState where
  remseq : Nat
  myseq : Nat
  lastsize : Nat
  awaitingack : Bool
  pendingoutput : List QElem
  lastpayload : List Nat
  lasttextsize : Nat
  maxoutcount : Nat
  broken : Bool
  connected : Bool
  activated : Bool
  attached : Bool
deriving DecidableEq

/-- The state of a freshly constructed `Console` (console.py lines 47-61);
`maxoutcount` is only assigned at activation, 0 stands for unset. -/
def consoleInit : ConsoleState :=
  { remseq := 0, myseq := 0, lastsize := 0, awaitingack := false,
    pendingoutput := [], lastpayload := [], lasttextsize := 0,
    maxoutcount := 0, broken := false, connected := false,
    activated := false, attached := true }

/-- Embedding of `Console._print_error` (console.py lines 310-321): sets
`broken`, detaches the console from its session, and emits the error to the
iohandler. -/
def printError (s : ConsoleState) (msg : String) : ConsoleState × List CEvent :=
  ({ s with broken := true, attached := false }, [CEvent.errorOut msg])

/-- Embedding of `Console._addpendingdata` for a text chunk (console.py
lines 180-189): coalesce onto a trailing text chunk, else append a new
element. -/
def addpendingChunk (q : List QElem) (d : List Nat) : List QElem :=
  match q.getLast? with
  | some (QElem.chunk c) => q.dropLast ++ [QElem.chunk (c ++ d)]
  | _ => q ++ [QElem.chunk d]

/-- The retry loop of `Console._sendoutput` (console.py lines 283-291),
parameterized by the environment: `ackDuring i = true` when the awaited
acknowledgment arrives (via a reentrant `_got_sol_payload` inside
`wait_for_rsp`) during the wait window of iteration `i` (0-based). The
first argument of the result is the final value of `retries`, the second
the final `awaitingack`, the third the number of retransmissions of the
payload performed by the loop body. -/
def solRetryLoop (ackDuring : Nat → Bool) : Nat → Bool → Nat × Bool × Nat
  | 0, aw => (0, aw, 0)
  | r + 1, aw =>
    if aw then
      let aw2 := aw && !(ackDuring (5 - (r + 1)))
      let rest := solRetryLoop ackDuring r aw2
      (rest.1, rest.2.1, rest.2.2 + (if aw2 then 1 else 0))
    else (r + 1, aw, 0)

/-- Embedding of `Console._sendoutput` (console.py lines 260-293): advance
`myseq` (wrapping 15 to 1, never 0), build the SOL payload, mark
`awaitingack`, transmit, run the retry loop, and report `Connection lost`
via `_print_error` exactly when the retry counter reached zero. -/
def sendoutput (ackDuring : Nat → Bool) (s : ConsoleState) (output : List Nat)
    (sendbreak : Bool) : ConsoleState × List CEvent :=
  let m1 := (s.myseq + 1) &&& 15
  let m2 := if m1 = 0 then 1 else m1
  let breakbyte := if sendbreak then 16 else 0
  let payload := [m2, 0, 0, breakbyte] ++ output
  let s1 := { s with myseq := m2, lasttextsize := output.length,
                     awaitingack := true, lastpayload := payload }
  let res := solRetryLoop ackDuring 5 true
  let s2 := { s1 with awaitingack := res.2.1 }
  let evs := CEvent.xmit payload :: List.replicate res.2.2 (CEvent.xmit payload)
  if res.1 = 0 then
    let pe := printError s2 "Connection lost"
    (pe.1, evs ++ pe.2)
  else (s2, evs)

/-- Embedding of `Console._sendpendingoutput` (console.py lines 238-258):
pop the head of the queue (a break marker alone, or a chunk truncated to
`maxoutcount`) and hand it to `_sendoutput`. -/
def sendpendingoutput (ackDuring : Nat → Bool) (s : ConsoleState) :
    ConsoleState × List CEvent :=
  match s.pendingoutput with
  | [] => (s, [])
  | QElem.brk :: rest => sendoutput ackDuring { s with pendingoutput := rest } [] true
  | QElem.chunk c :: rest =>
    if c.length > s.maxoutcount then
      sendoutput ackDuring
        { s with pendingoutput := QElem.chunk (c.drop s.maxoutcount) :: rest }
        (c.take s.maxoutcount) false
    else
      sendoutput ackDuring { s with pendingoutput := rest } c false

/-- Embedding of `Console.send_data` (console.py lines 212-219). -/
def sendData (ackDuring : Nat → Bool) (s : ConsoleState) (d : List Nat) :
    ConsoleState × List CEvent :=
  if s.broken then (s, [])
  else
    let s1 := { s with pendingoutput := addpendingChunk s.pendingoutput d }
    if ¬ s1.connected then (s1, [])
    else if ¬ s1.awaitingack then sendpendingoutput ackDuring s1
    else (s1, [])

/-- Embedding of the inbound-data half of `Console._got_sol_payload`
(console.py lines 342-378): parse `newseq`, apply the remote-retry dedup
against `lastsize`, deliver the surviving bytes, and transmit the ack
payload `(0, remseq, remdatalen, 0)`. -/
def solDataStep (s : ConsoleState) (payload : List Nat) :
    ConsoleState × List CEvent :=
  let newseq := payload.getD 0 0 &&& 15
  if newseq ≠ 0 then
    let remdatalen := if payload.length > 4 then payload.length - 4 else 0
    let remdata0 : List Nat := if payload.length > 4 then payload.drop 4 else []
    let p :=
      if newseq = s.remseq then
        if remdatalen > s.lastsize then (s, remdata0.drop (4 + s.lastsize))
        else (s, ([] : List Nat))
      else ({ s with remseq := newseq }, remdata0)
    let s1 := { p.1 with lastsize := remdatalen }
    let devs := if p.2 ≠ [] then [CEvent.bytesOut p.2] else []
    (s1, devs ++ [CEvent.xmit [0, s1.remseq, remdatalen, 0]])
  else (s, [])

/-- The queue prepend of console.py lines 391-398: coalesce `newtext` onto
a text chunk at the head of the queue, else insert it as a new head
element. -/
def prependTail (q : List QElem) (newtext : List Nat) : List QElem :=
  match q with
  | QElem.chunk c :: rest => QElem.chunk (newtext ++ c) :: rest
  | other => QElem.chunk newtext :: other

/-- Embedding of the acknowledgment-handling block of
`Console._got_sol_payload` (console.py lines 379-398, the body of
`if self.myseq != 0 and ackseq == self.myseq`, up to but not including the
queue service of line 400): clear `awaitingack`; on a NACK without break,
report power-off, handle the deactivated flag through `_print_error`, or
prepend the unacknowledged tail `lastpayload[4+ackcount:]` to the
pending-output queue. -/
def solAckUpdate (s : ConsoleState) (payload : List Nat) :
    ConsoleState × List CEvent :=
  let ackcount := payload.getD 2 0
  let flags := payload.getD 3 0
  let nacked := flags &&& 64 ≠ 0
  let poweredoff := flags &&& 32 ≠ 0
  let deactivated := flags &&& 16 ≠ 0
  let breakdetected := flags &&& 4 ≠ 0
  let s1 := { s with awaitingack := false }
  if nacked ∧ ¬ breakdetected then
    let evpow := if poweredoff then [CEvent.info "Remote system is powered down"] else []
    if deactivated then
      let pe := printError { s1 with activated := false } "Remote IPMI console disconnected"
      (pe.1, evpow ++ pe.2)
    else
      let newtext := s1.lastpayload.drop (4 + ackcount)
      ({ s1 with pendingoutput := prependTail s1.pendingoutput newtext }, evpow)
  else (s1, [])

/-- Embedding of `Console._got_sol_payload` for a byte payload (console.py
lines 332-410): the inbound-data step, then either the acknowledgment block
followed by the queue service `_sendpendingoutput`, or the defensive
immediate retransmission of `lastpayload` on a foreign nonzero ack. -/
def gotSolPayload (ackDuring : Nat → Bool) (s : ConsoleState)
    (payload : List Nat) : ConsoleState × List CEvent :=
  let ackseq := payload.getD 1 0 &&& 15
  let d := solDataStep s payload
  let s1 := d.1
  if s1.myseq ≠ 0 ∧ ackseq = s1.myseq then
    let a := solAckUpdate s1 payload
    let sp := sendpendingoutput ackDuring a.1
    (sp.1, d.2 ++ a.2 ++ sp.2)
  else if ackseq ≠ 0 ∧ s1.awaitingack then
    (s1, d.2 ++ [CEvent.xmit s1.lastpayload])
  else (s1, d.2)

/-- The byte strings a list of console events delivers to the iohandler. -/
def deliveredData (evs : List CEvent) : List (List Nat) :=
  evs.filterMap fun e => match e with | CEvent.bytesOut b => some b | _ => none

/-- Whether the head of a pending-output queue is a text chunk beginning
with the byte string `t`. -/
def queueHeadChunkPrefix (q : List QElem) (t : List Nat) : Bool :=
  match q with
  | QElem.chunk c :: _ => t.isPrefixOf c
  | _ => false

/-! ### Session model (pyghmi/ipmi/private/simplesession.py, class Session) -/

/-- The value of `Session.sessioncontext`: `unset` stands for the Python
`None` it carries before `_open_rmcpplus_request` runs. -/
inductive SCtx
  | unset | opensession | expectingrakp2 | expectingrakp4 | established | failed
deriving DecidableEq

/-- The negotiated hash library (`Session.currhashlib`): `hashlib.sha1`
or `hashlib.sha256`. -/
inductive HashKind
  | sha1 | sha256
deriving DecidableEq

/-- Argument of an `onlogon` invocation: `{success: True}` or
`{error: msg}`. -/
inductive LogonMsg
  | success
  | failure (msg : String)
deriving DecidableEq

/-- Observable effect of session code: a payload handed to `_xmit_packet`
(with its payload type and the session sequence number embedded into the
RMCP frame), an `ipmicallback` invocation, an `onlogon` invocation,
a re-entry into `_get_channel_auth_cap` (handshake restart), or the wire
commands of `logout`. -/
inductive SEvent
  | xmit (ptype : Nat) (payload : List Nat) (wireseq : Nat)
  | callback (err : Option String) (code : Nat)
  | logon (r : LogonMsg)
  | sendAuthCap
  | logoutCmds
deriving DecidableEq

/-- The mutable state of a `Session` object: the fields of `__init__` and
`_initsession` (simplesession.py lines 190-321) that the claims touch. -/
structure SState where
  sessioncontext : SCtx
  localsid : Nat
  rmcptag : Nat
  attemptedhash : Nat
  currhash : Option HashKind
  currhashlen : Nat
  authtype : Nat
  lastpayload : Option (List Nat)
  lastpayloadtype : Option Nat
  pendingpayloads : List (List Nat × Nat × Bool)
  timeout : Rat
  maxtimeout : Rat
  sequencenumber : Nat
  sessionid : Nat
  pendingsessionid : Nat
  privlevel : Nat
  autopriv : Bool
  nameonly : Nat
  userid : List Nat
  password : List Nat
  kg : List Nat
  randombytes : List Nat
  remoterandombytes : List Nat
  remoteguid : List Nat
  sik : Option (List Nat)
  k1 : Option (List Nat)
  k2 : Option (List Nat)
  aeskey : Option (List Nat)
  broken : Bool
  logged : Bool
  logging : Bool
  nowait : Bool
  hasretried : Bool
  logontries : Nat
  errormsg : Option String
deriving DecidableEq

/-- Embedding of `Session._initsession` (simplesession.py lines 277-321)
restricted to the modelled fields; `rand` is the value `random.random()`
returns for the initial timeout draw. -/
def initsessionS (rand : Rat) (s : SState) : SState :=
  { s with localsid := 2017673555, aeskey := none, attemptedhash := 256,
           currhash := none, currhashlen := 0, k1 := none, rmcptag := 1,
           lastpayload := none, sessioncontext := SCtx.unset,
           sequencenumber := 0, sessionid := 0, authtype := 0,
           timeout := 1/2 + rand/2, logging := true, logged := false }

/-- Embedding of `Session._mark_broken` (simplesession.py lines 260-268)
together with the state effect of the `logout` it calls: clear
`lastpayload`, log out when logged (its wire traffic is the
`logoutCmds` event), stop logging, record the error and set `broken`. -/
def markBrokenS (s : SState) (err : Option String) : SState × List SEvent :=
  let s1 := { s with lastpayload := none }
  let lo := if s1.logged then
      ({ s1 with logged := false, logging := false, broken := true }, [SEvent.logoutCmds])
    else (s1, ([] : List SEvent))
  ({ lo.1 with logging := false, errormsg := err, broken := true }, lo.2)

/-- Embedding of `Session.onlogon` (simplesession.py lines 270-275): an
error parameter marks the session broken before the waiters run. -/
def onlogonS (s : SState) (r : LogonMsg) : SState × List SEvent :=
  match r with
  | LogonMsg.failure msg =>
    let mb := markBrokenS s (some msg)
    (mb.1, mb.2 ++ [SEvent.logon r])
  | LogonMsg.success => (s, [SEvent.logon r])

/-- Embedding of `Session.send_payload` (simplesession.py lines 519-623)
at the payload level together with the sequence-number effect of
`_xmit_packet` (lines 1327-1330): queue behind an outstanding retried
payload, resolve an empty payload to `lastpayload`, record the payload for
retry, emit the frame carrying the current `sequencenumber`, then increment
a nonzero `sequencenumber`. The RMCP framing bytes around the payload are
not modelled. -/
def sendPayloadS (s : SState) (payload : List Nat) (ptypeArg : Option Nat)
    (retry : Bool) : SState × List SEvent :=
  if payload ≠ [] ∧ s.lastpayload.isSome then
    ({ s with pendingpayloads := s.pendingpayloads ++ [(payload, ptypeArg.getD 0, retry)] }, [])
  else
    let ptype := ptypeArg.getD (s.lastpayloadtype.getD 0)
    let pl := if payload = [] then s.lastpayload.getD [] else payload
    let s1 := if retry then { s with lastpayload := some pl, lastpayloadtype := some ptype }
              else s
    let ev := SEvent.xmit ptype pl s1.sequencenumber
    ({ s1 with sequencenumber :=
        if s1.sequencenumber ≠ 0 then s1.sequencenumber + 1 else s1.sequencenumber }, [ev])

/-- The algorithm-proposal bytes of the Open Session Request when
`attemptedhash == 1` (SHA-1 suite, simplesession.py lines 761-766). -/
def algoSha1 : List Nat :=
  [0, 0, 0, 8, 1, 0, 0, 0, 1, 0, 0, 8, 1, 0, 0, 0, 2, 0, 0, 8, 1, 0, 0, 0]

/-- The algorithm-proposal bytes of the Open Session Request otherwise
(SHA-256 suite, simplesession.py lines 770-775). -/
def algoSha256 : List Nat :=
  [0, 0, 0, 8, 3, 0, 0, 0, 1, 0, 0, 8, 4, 0, 0, 0, 2, 0, 0, 8, 1, 0, 0, 0]

/-- Embedding of `Session._open_rmcpplus_request` (simplesession.py lines
746-782): set RMCP+ authtype, increment `localsid` and `rmcptag`, build the
Open Session Request from the incremented values, pick the hash library,
enter the OPENSESSION context and send (payload type 0x10 per
`_handle_ipmi2_packet`). -/
def openRmcpplusRequest (s : SState) : SState × List SEvent :=
  let s1 := { s with authtype := 6, localsid := s.localsid + 1, rmcptag := s.rmcptag + 1 }
  let data := [s1.rmcptag, 0, 0, 0] ++ le32 s1.localsid
    ++ (if s1.attemptedhash = 1 then algoSha1 else algoSha256)
  let s2 := if s1.attemptedhash = 1 then
      { s1 with currhash := some HashKind.sha1, currhashlen := 12 }
    else { s1 with currhash := some HashKind.sha256, currhashlen := 16 }
  let s3 := { s2 with sessioncontext := SCtx.opensession, lastpayload := none }
  sendPayloadS s3 data (some 16) true

/-- Embedding of `Session._timedout` (simplesession.py lines 1286-1325):
no-op without an outstanding payload; grow `timeout` by 1; above
`maxtimeout` invoke the callback with the timeout error and mark broken;
otherwise act by context — rebuild the Open Session Request in
OPENSESSION, rewind the whole login (`_relog`, lines 1162-1165) in the
RAKP contexts, abandon in FAILED, and resend the payload (remembering
`hasretried`) in the established IPMI case. `rand` feeds the
`_initsession` inside `_relog`. -/
def timedoutS (s : SState) (rand : Rat) : SState × List SEvent :=
  match s.lastpayload with
  | none => (s, [])
  | some _ =>
    let s1 := { s with nowait := true, timeout := s.timeout + 1 }
    if s1.timeout > s1.maxtimeout then
      let mb := markBrokenS s1 none
      ({ mb.1 with nowait := false },
        SEvent.callback (some "timeout") 65535 :: mb.2)
    else if s1.sessioncontext = SCtx.failed then
      ({ s1 with lastpayload := none, nowait := false }, [])
    else if s1.sessioncontext = SCtx.opensession then
      let o := openRmcpplusRequest { s1 with lastpayload := none }
      ({ o.1 with nowait := false }, o.2)
    else if s1.sessioncontext = SCtx.expectingrakp2
        ∨ s1.sessioncontext = SCtx.expectingrakp4 then
      let s2 := initsessionS rand { s1 with lastpayload := none }
      ({ s2 with logontries := s2.logontries - 1, nowait := false },
        [SEvent.sendAuthCap])
    else
      let sp := sendPayloadS { s1 with hasretried := true } [] none true
      ({ sp.1 with nowait := false }, sp.2)

/-- Modelled from the spec: the fixed RMCP+ status-code table
(`constants.rmcp_codes` of pyghmi.ipmi.private.constants, a module not
under src/); the spec only says RMCP+ status codes are translated to
human-readable strings via fixed tables, so the translation is abstracted
to the code value. -/
def rmcpCodeStr (code : Nat) : String :=
  toString code

/-- Embedding of `Session._send_rakp3` (simplesession.py lines 1146-1160),
parameterized by the HMAC primitive: increment `rmcptag`, authenticate
(remoterandombytes, localsid, nameonly|privlevel, userlen, userid) with the
password, and send payload type 0x14. -/
def sendRakp3S (hmacF : Option HashKind → List Nat → List Nat → List Nat)
    (s : SState) : SState × List SEvent :=
  let s1 := { s with rmcptag := s.rmcptag + 1 }
  let hmacdata := s1.remoterandombytes ++ le32 s1.localsid
    ++ [s1.nameonly ||| s1.privlevel, s1.userid.length] ++ s1.userid
  let authcode := hmacF s1.currhash s1.password hmacdata
  let payload := [s1.rmcptag, 0, 0, 0] ++ le32 s1.pendingsessionid ++ authcode
  sendPayloadS s1 payload (some 20) true

/-- Embedding of `Session._got_rakp2` (simplesession.py lines 1088-1144),
parameterized by the HMAC primitive `hmacF hash key data` and by the
`random.random()` draw `rand` a privilege-downgrade relogin would make:
filter by context, tag and status; verify the RAKP2 HMAC against the
password; on mismatch fail the session, on match derive SIK/K1/K2/aeskey
and send RAKP3. -/
def gotRakp2S (hmacF : Option HashKind → List Nat → List Nat → List Nat)
    (rand : Rat) (s : SState) (data : List Nat) : SState × List SEvent :=
  if ¬ (s.sessioncontext = SCtx.expectingrakp2
      ∨ s.sessioncontext = SCtx.expectingrakp4) then (s, [])
  else if data.getD 0 0 ≠ s.rmcptag then (s, [])
  else if data.getD 1 0 ≠ 0 then
    if (data.getD 1 0 = 9 ∨ data.getD 1 0 = 13) ∧ s.privlevel = 4 ∧ s.autopriv then
      let s2 := initsessionS rand { s with privlevel := 3, logontries := 5 }
      (s2, [SEvent.sendAuthCap])
    else if data.getD 1 0 = 2 then (s, [])
    else onlogonS s (LogonMsg.failure (rmcpCodeStr (data.getD 1 0) ++ " in RAKP2"))
  else
    let localsid := leRead32 ((data.drop 4).take 4)
    if localsid ≠ s.localsid then (s, [])
    else
      let s1 := { s with remoterandombytes := (data.drop 8).take 16,
                         remoteguid := (data.drop 24).take 16 }
      let userlen := s1.userid.length
      let hmacdata := le32 localsid ++ le32 s1.pendingsessionid
        ++ s1.randombytes ++ s1.remoterandombytes ++ s1.remoteguid
        ++ [s1.nameonly ||| s1.privlevel, userlen] ++ s1.userid
      let expectedhash := hmacF s1.currhash s1.password hmacdata
      let givenhash := (data.drop 40).take expectedhash.length
      if givenhash ≠ expectedhash then
        onlogonS { s1 with sessioncontext := SCtx.failed }
          (LogonMsg.failure "Incorrect password provided")
      else
        let sik := hmacF s1.currhash s1.kg
          (s1.randombytes ++ s1.remoterandombytes
            ++ [s1.nameonly ||| s1.privlevel, userlen] ++ s1.userid)
        let k1v := hmacF s1.currhash sik (List.replicate 20 1)
        let k2v := hmacF s1.currhash sik (List.replicate 20 2)
        sendRakp3S hmacF
          { s1 with sik := some sik, k1 := some k1v, k2 := some k2v,
                    aeskey := some (k2v.take 16),
                    sessioncontext := SCtx.expectingrakp4, lastpayload := none }

/-- The byte string the RAKP2 HMAC covers, phrased over the session state
and the wire message: localsid, pendingsessionid, randombytes,
remoterandombytes (wire bytes 8..24), remoteguid (wire bytes 24..40),
nameonly|privlevel, userlen, userid (simplesession.py lines 1119-1123). -/
def rakp2Hmacdata (s : SState) (data : List Nat) : List Nat :=
  le32 s.localsid ++ le32 s.pendingsessionid ++ s.randombytes
    ++ (data.drop 8).take 16 ++ (data.drop 24).take 16
    ++ [s.nameonly ||| s.privlevel, s.userid.length] ++ s.userid

/-- The byte string the SIK derivation covers (simplesession.py lines
1134-1138). -/
def sikHmacdata (s : SState) (data : List Nat) : List Nat :=
  s.randombytes ++ (data.drop 8).take 16
    ++ [s.nameonly ||| s.privlevel, s.userid.length] ++ s.userid

/-- Embedding of the sequence-number effect of `Session._xmit_packet`
(simplesession.py lines 1327-1330): a nonzero `sequencenumber` is
incremented after the frame (carrying the pre-increment value) is built
and sent; zero is left alone. -/
def xmitPacketStep (s : SState) : SState :=
  if s.sequencenumber ≠ 0 then { s with sequencenumber := s.sequencenumber + 1 } else s

/-- The wire sequence numbers of `n` consecutive transmissions starting
from session sequence number `seq`: each frame embeds the current value
(send_payload line 565) and `_xmit_packet` then increments it when
nonzero. -/
def wireSeqs : Nat → Nat → List Nat
  | _, 0 => []
  | seq, n + 1 => seq :: wireSeqs (if seq ≠ 0 then seq + 1 else seq) n

/-- A `Session` state as produced by `__init__` plus `_initsession` with a
zero random draw (simplesession.py lines 190-321). -/
def sessionBase : SState :=
  { sessioncontext := SCtx.unset, localsid := 2017673555, rmcptag := 1,
    attemptedhash := 256, currhash := none, currhashlen := 0, authtype := 0,
    lastpayload := none, lastpayloadtype := none, pendingpayloads := [],
    timeout := 1/2, maxtimeout := 3, sequencenumber := 0, sessionid := 0,
    pendingsessionid := 0, privlevel := 4, autopriv := true, nameonly := 16,
    userid := [], password := [], kg := [], randombytes := [],
    remoterandombytes := [], remoteguid := [], sik := none, k1 := none,
    k2 := none, aeskey := none, broken := false, logged := false,
    logging := true, nowait := false, hasretried := false, logontries := 5,
    errormsg := none }

/-- The payloads a list of session events hands to `_xmit_packet`. -/
def xmittedPayloads (evs : List SEvent) : List (List Nat) :=
  evs.filterMap fun e => match e with | SEvent.xmit _ p _ => some p | _ => none

/-! ### SDR record-fetch loop (pyghmi/ipmi/sdr.py, SDR.get_sdr) -/

/-- The loop variables of the record-fetch loop of `SDR.get_sdr`
(sdr.py lines 721-804). -/
structure SdrState where
  rsvid : Nat
  recid : Nat
  offset : Nat
  size : Nat
  chunksize : Nat
  currlen : Nat
  newrecid : Nat
  sdrdata : List Nat
deriving DecidableEq

/-- A BMC reply to a Get SDR request: completion code and data bytes. -/
structure SdrResp where
  code : Nat
  data : List Nat
deriving DecidableEq

/-- Control-flow outcome of one iteration of the inner fetch loop. -/
inductive SdrFlow
  | again
  | done
  | fail
deriving DecidableEq

/-- Result of one iteration of the inner fetch loop: the new loop state,
whether the iteration obtained a fresh reservation via netfn 0x0A command
0x22 (`get_sdr_reservation`, sdr.py lines 697-701), the request bytes it
issued to Get SDR (netfn 0x0A command 0x23), and where control goes. -/
structure SdrStepOut where
  state : SdrState
  reservationRequested : Bool
  request : List Nat
  flow : SdrFlow
deriving DecidableEq

/-- Embedding of one iteration of the inner fetch loop of `SDR.get_sdr`
(sdr.py lines 766-804): acquire a reservation at the loop top when the
size is no longer 0xFF and none is held (`newrsv` is the id a successful
`get_sdr_reservation` returns), issue the request, then dispatch on the
completion code — 0xCA shrinks the read size, 0xC5 drops the reservation,
other nonzero codes raise, and success appends the data and advances the
offset. -/
def sdrStep (s : SdrState) (newrsv : Nat) (resp : SdrResp) : SdrStepOut :=
  let reserved := s.size ≠ 255 ∧ s.rsvid = 0
  let rsvid := if s.size ≠ 255 ∧ s.rsvid = 0 then newrsv else s.rsvid
  let s0 := { s with rsvid := rsvid }
  let rq := [rsvid % 256, rsvid / 256, s0.recid % 256, s0.recid / 256,
             s0.offset, s0.size]
  let next : SdrState × SdrFlow :=
    if resp.code = 202 then
      if s0.size = 255 then
        ({ s0 with size := 5 }, SdrFlow.again)
      else if s0.size > 5 then
        let ns := s0.size / 2 + 2
        ({ s0 with size := ns, chunksize := ns }, SdrFlow.again)
      else (s0, SdrFlow.again)
    else if resp.code = 197 then
      ({ s0 with rsvid := 0 }, SdrFlow.again)
    else if resp.code ≠ 0 then
      (s0, SdrFlow.fail)
    else
      let s1 := if s0.newrecid = 0 then
          { s0 with newrecid := resp.data.getD 1 0 * 256 + resp.data.getD 0 0 }
        else s0
      let s2 := if s1.currlen = 0 then { s1 with currlen := resp.data.getD 6 0 + 5 }
        else s1
      let s3 := { s2 with sdrdata := s2.sdrdata ++ resp.data.drop 2,
                          offset := s2.offset + s2.size }
      if s3.offset ≥ s3.currlen then (s3, SdrFlow.done)
      else
        let s4 := if s3.size = 5 ∧ s3.offset = 5 then { s3 with size := s3.chunksize }
          else s3
        let s5 := if s4.offset + s4.size > s4.currlen then
            { s4 with size := s4.currlen - s4.offset }
          else s4
        (s5, SdrFlow.again)
  ⟨next.1, reserved, rq, next.2⟩

/-- The inner-loop state at the start of a record fetch in `SDR.get_sdr`
(sdr.py lines 721-725 and 762-765). -/
def sdrInit : SdrState :=
  { rsvid := 0, recid := 0, offset := 0, size := 255, chunksize := 128,
    currlen := 0, newrecid := 0, sdrdata := [] }

/-! ### Concrete states and inputs used by evaluation theorems -/

/-- An activated console about to receive its first inbound SOL data. -/
def c1Console : ConsoleState :=
  { consoleInit with connected := true, activated := true, maxoutcount := 64 }

/-- First inbound SOL payload of the C1 scenario: newseq 3 with 10 data
bytes. -/
def c1First : List Nat :=
  [3, 0, 0, 0, 100, 101, 102, 103, 104, 105, 106, 107, 108, 109]

/-- Second inbound SOL payload of the C1 scenario: a retry of newseq 3
carrying the same 10 bytes plus 5 new ones (15 data bytes). -/
def c1Second : List Nat :=
  c1First ++ [110, 111, 112, 113, 114]

/-- A console with an in-flight payload of sequence 1 and an empty
pending-output queue. -/
def c5Console : ConsoleState :=
  { consoleInit with
      connected := true, activated := true, maxoutcount := 64,
      myseq := 1, awaitingack := true, lasttextsize := 3,
      lastpayload := [1, 0, 0, 0, 65, 66, 67] }

/-- A console with an in-flight payload of sequence 1 and one queued text
chunk. -/
def c5ConsoleQueued : ConsoleState :=
  { consoleInit with
      connected := true, activated := true, maxoutcount := 64,
      myseq := 1, awaitingack := true, lasttextsize := 3,
      lastpayload := [1, 0, 0, 0, 65, 66, 67],
      pendingoutput := [QElem.chunk [90]] }

/-- A connected console used to exercise the `_sendoutput` retry loop. -/
def c9Console : ConsoleState :=
  { consoleInit with connected := true, maxoutcount := 64 }

/-- An acknowledgment-arrival oracle where the ack lands only during the
final (fifth) retry window. -/
def c9AckLate : Nat → Bool := fun i => decide (i = 4)

/-- A broken console (as `_print_error` leaves it). -/
def c10Console : ConsoleState :=
  { consoleInit with broken := true, connected := true, attached := false }

/-- The Open Session Request payload built by the first
`_open_rmcpplus_request` from the freshly initialized session. -/
def c2FirstPayload : List Nat :=
  [2, 0, 0, 0] ++ le32 2017673556 ++ algoSha256

/-- The session right after its first Open Session Request (the state on
which an OPENSESSION `_timedout` fires); `c2AfterOpen_from_code` checks it
against `openRmcpplusRequest`. -/
def c2AfterOpen : SState :=
  { sessionBase with
      sessioncontext := SCtx.opensession, authtype := 6,
      localsid := 2017673556, rmcptag := 2,
      currhash := some HashKind.sha256, currhashlen := 16,
      lastpayload := some c2FirstPayload, lastpayloadtype := some 16 }

/-- An established, logged-in session with a pending retried IPMI command
and a current timeout of 2 seconds. -/
def c3Established : SState :=
  { sessionBase with
      sessioncontext := SCtx.established, logged := true,
      lastpayload := some [32, 24, 196, 129, 4, 1, 118],
      lastpayloadtype := some 0, timeout := 2, maxtimeout := 6,
      sequencenumber := 5 }

/-- A concrete stand-in HMAC primitive for evaluating the RAKP2 handler. -/
def hmacConcrete : Option HashKind → List Nat → List Nat → List Nat :=
  fun _ key data => [(key.length + data.length) % 13, 7]

/-- A session awaiting RAKP2 with concrete credentials and nonces. -/
def c4Expecting : SState :=
  { sessionBase with
      sessioncontext := SCtx.expectingrakp2, rmcptag := 2,
      localsid := 258, pendingsessionid := 77,
      randombytes := List.replicate 16 9, userid := [97, 98],
      password := [112], kg := [112], currhash := some HashKind.sha256 }

/-- A RAKP2 message for `c4Expecting` whose trailing authentication code
does not match the one `hmacConcrete` computes. -/
def c4BadRakp2 : List Nat :=
  [2, 0, 0, 0] ++ le32 258 ++ List.replicate 16 1 ++ List.replicate 16 2
    ++ [0, 0]

/-- An established session state used to witness the sequence-number
step. -/
def c6Established : SState :=
  { sessionBase with
      sessioncontext := SCtx.established, logged := true,
      sequencenumber := 42 }

/-- A mid-fetch SDR loop state holding a reservation with an adapted
read size. -/
def c8Partial : SdrState :=
  { sdrInit with rsvid := 5, recid := 3, offset := 10, size := 32 }

end Pyghmi

namespace Pyghmi

/-! ### Claim theorems -/

/-- C7: for every input byte string, `_aespad` returns the bytes
0x01, 0x02, ..., 0x0N followed by the pad-length byte N, where N is the
unique value in [0, 15] making len(data) + N + 1 a multiple of 16; hence
the encrypted region payload ++ pad ++ pad-length byte always has length a
multiple of 16. -/
theorem aespad_correct (data : List Nat) :
    aespad data
      = (List.range ((16 - (data.length + 1) % 16) % 16)).map (fun i => i + 1)
        ++ [(16 - (data.length + 1) % 16) % 16]
    ∧ (16 - (data.length + 1) % 16) % 16 ≤ 15
    ∧ (data.length + ((16 - (data.length + 1) % 16) % 16) + 1) % 16 = 0
    ∧ (∀ m, m ≤ 15 → (data.length + m + 1) % 16 = 0 →
        m = (16 - (data.length + 1) % 16) % 16)
    ∧ (data ++ aespad data).length % 16 = 0 := by
  have hIf : (if (data.length + 1) % 16 ≠ 0 then 16 - (data.length + 1) % 16
      else (data.length + 1) % 16) = (16 - (data.length + 1) % 16) % 16 := by
    split <;> omega
  have hA : aespad data
      = (List.range ((16 - (data.length + 1) % 16) % 16)).map (fun i => i + 1)
        ++ [(16 - (data.length + 1) % 16) % 16] := by
    simp only [aespad]
    rw [hIf]
  refine ⟨hA, by omega, by omega, fun m hm hmod => by omega, ?_⟩
  rw [List.length_append, hA]
  simp only [List.length_append, List.length_map, List.length_range,
    List.length_singleton]
  omega

/-- C10: calling `Console.send_data` while the broken flag is set returns
immediately: the state (pending-output queue included) is unchanged and no
event — iohandler invocation or transmission — is produced. -/
theorem sendData_broken_discards (ackDuring : Nat → Bool) (s : ConsoleState)
    (d : List Nat) (h : s.broken = true) :
    sendData ackDuring s d = (s, []) := by
  simp [sendData, h]

/-- Witness for C10 at a concrete broken console. -/
theorem sendData_broken_discards_witness :
    c10Console.broken = true
    ∧ sendData (fun _ => false) c10Console [1, 2, 3] = (c10Console, []) :=
  ⟨rfl, sendData_broken_discards (fun _ => false) c10Console [1, 2, 3] rfl⟩

/-- C1 (code evaluated at the failing input): processing the inbound SOL
payloads (newseq 3, 10 data bytes) then the retry (newseq 3, 15 data
bytes) delivers the 10 bytes and then a single byte — the slice
`remdata[4 + lastsize:]` of console.py line 362 is applied to data that
already had its 4-byte header stripped, so data bytes 10..13 of the retry
are lost — where the claim promises 5 bytes. -/
theorem gotSolPayload_remote_retry_delivery :
    deliveredData (gotSolPayload (fun _ => false) c1Console c1First).2
      = [[100, 101, 102, 103, 104, 105, 106, 107, 108, 109]]
    ∧ deliveredData
        (gotSolPayload (fun _ => false)
          (gotSolPayload (fun _ => false) c1Console c1First).1 c1Second).2
      = [[114]]
    ∧ (gotSolPayload (fun _ => false)
          (gotSolPayload (fun _ => false) c1Console c1First).1 c1Second).1.lastsize
      = 15 := by
  decide

/-- C5 (counterexample): an acknowledgment with matching ackseq, the NACK
bit (64) set, the break bit (4) clear, but the deactivated bit (16) set:
after processing, the unacknowledged tail `lastpayload[4:]` is not placed
at the head of the pending-output queue (the queue stays empty; the console
takes the `_print_error` branch instead). -/
theorem gotSolPayload_nack_deactivated_no_prepend :
    (80 &&& 64 ≠ 0)
    ∧ (80 &&& 4 = 0)
    ∧ ([0, 1, 0, 80].getD 1 0 &&& 15 = c5Console.myseq)
    ∧ (gotSolPayload (fun _ => false) c5Console [0, 1, 0, 80]).1.awaitingack = false
    ∧ queueHeadChunkPrefix
        (gotSolPayload (fun _ => false) c5Console [0, 1, 0, 80]).1.pendingoutput
        (c5Console.lastpayload.drop 4) = false
    ∧ (gotSolPayload (fun _ => false) c5Console [0, 1, 0, 80]).1.pendingoutput = [] := by
  decide

end Pyghmi

namespace Pyghmi

/-- The inbound-data step of `_got_sol_payload` only touches `remseq` and
`lastsize`; the ack-related fields and the pending-output queue pass
through unchanged. -/
theorem solDataStep_fields (s : ConsoleState) (payload : List Nat) :
    (solDataStep s payload).1.lastpayload = s.lastpayload
    ∧ (solDataStep s payload).1.myseq = s.myseq
    ∧ (solDataStep s payload).1.awaitingack = s.awaitingack
    ∧ (solDataStep s payload).1.pendingoutput = s.pendingoutput := by
  simp only [solDataStep]
  repeat' split
  all_goals simp

/-- After the prepend of console.py lines 391-398, the head of the queue is
a text chunk beginning with the prepended tail. -/
theorem prependTail_headPrefix (q : List QElem) (t : List Nat) :
    queueHeadChunkPrefix (prependTail q t) t = true := by
  cases q with
  | nil => simp [prependTail, queueHeadChunkPrefix, List.isPrefixOf_iff_prefix]
  | cons h rest =>
    cases h with
    | chunk c =>
      simp [prependTail, queueHeadChunkPrefix, List.isPrefixOf_iff_prefix,
        List.prefix_append]
    | brk => simp [prependTail, queueHeadChunkPrefix, List.isPrefixOf_iff_prefix]

/-- C5 (amended): for a sent payload with nonzero `myseq` and a received
payload whose ackseq matches it, `_got_sol_payload` runs the inbound-data
step, then the acknowledgment block, then services the queue; at the
completion of the acknowledgment block (before `_sendpendingoutput` may
pop and retransmit), `awaitingack` is false, and when the NACK bit is set
with both the break-detected and the deactivated bits clear, the
unacknowledged tail `lastpayload[4+ackcount:]` sits at the head of the
pending-output queue, ahead of all previously queued bytes. -/
theorem gotSolPayload_ack_processing (ackDuring : Nat → Bool)
    (s : ConsoleState) (payload : List Nat)
    (hmy : s.myseq ≠ 0) (hack : payload.getD 1 0 &&& 15 = s.myseq) :
    gotSolPayload ackDuring s payload
      = ((sendpendingoutput ackDuring
            (solAckUpdate (solDataStep s payload).1 payload).1).1,
         (solDataStep s payload).2
           ++ (solAckUpdate (solDataStep s payload).1 payload).2
           ++ (sendpendingoutput ackDuring
                (solAckUpdate (solDataStep s payload).1 payload).1).2)
    ∧ (solAckUpdate (solDataStep s payload).1 payload).1.awaitingack = false
    ∧ (payload.getD 3 0 &&& 64 ≠ 0 → payload.getD 3 0 &&& 4 = 0 →
        payload.getD 3 0 &&& 16 = 0 →
        (solAckUpdate (solDataStep s payload).1 payload).1.pendingoutput
          = prependTail s.pendingoutput (s.lastpayload.drop (4 + payload.getD 2 0))
        ∧ queueHeadChunkPrefix
            (solAckUpdate (solDataStep s payload).1 payload).1.pendingoutput
            (s.lastpayload.drop (4 + payload.getD 2 0)) = true) := by
  obtain ⟨hlp, hms, _, hpo⟩ := solDataStep_fields s payload
  refine ⟨?_, ?_, ?_⟩
  · simp only [gotSolPayload]
    rw [if_pos ⟨by rw [hms]; exact hmy, by rw [hms]; exact hack⟩]
  · simp only [solAckUpdate]
    repeat' split
    all_goals simp [printError]
  · intro h64 h4 h16
    have hq : (solAckUpdate (solDataStep s payload).1 payload).1.pendingoutput
        = prependTail s.pendingoutput
            (s.lastpayload.drop (4 + payload.getD 2 0)) := by
      simp only [solAckUpdate]
      rw [if_pos ⟨h64, fun hb => hb h4⟩, if_neg (fun hd => hd h16)]
      simp only [hpo, hlp]
    exact ⟨hq, by rw [hq]; exact prependTail_headPrefix s.pendingoutput _⟩

end Pyghmi

namespace Pyghmi

/-- Witness for C5 (amended) at a concrete console with a queued chunk and
a plain NACK acknowledgment. -/
theorem gotSolPayload_ack_processing_witness :
    (solAckUpdate (solDataStep c5ConsoleQueued [0, 1, 1, 64]).1
        [0, 1, 1, 64]).1.awaitingack = false
    ∧ (solAckUpdate (solDataStep c5ConsoleQueued [0, 1, 1, 64]).1
        [0, 1, 1, 64]).1.pendingoutput
      = prependTail c5ConsoleQueued.pendingoutput
          (c5ConsoleQueued.lastpayload.drop (4 + [0, 1, 1, 64].getD 2 0))
    ∧ queueHeadChunkPrefix
        (solAckUpdate (solDataStep c5ConsoleQueued [0, 1, 1, 64]).1
          [0, 1, 1, 64]).1.pendingoutput
        (c5ConsoleQueued.lastpayload.drop (4 + [0, 1, 1, 64].getD 2 0)) = true := by
  have h := gotSolPayload_ack_processing (fun _ => false) c5ConsoleQueued
    [0, 1, 1, 64] (by decide) (by decide)
  exact ⟨h.2.1, (h.2.2 (by decide) (by decide) (by decide)).1,
    (h.2.2 (by decide) (by decide) (by decide)).2⟩

/-- C9: whenever the retry loop of `Console._sendoutput` runs its counter
down to zero — the acknowledgment does not arrive during the first four
wait windows — the console reports `Connection lost` through
`_print_error` (setting `broken` and detaching from the session) based
solely on the counter, irrespective of whether the acknowledgment arrives
during the fifth and final window. -/
theorem sendoutput_counter_exhaustion (ackDuring : Nat → Bool)
    (s : ConsoleState) (output : List Nat) (sendbreak : Bool)
    (h : ∀ j, j < 4 → ackDuring j = false) :
    (sendoutput ackDuring s output sendbreak).1.broken = true
    ∧ (sendoutput ackDuring s output sendbreak).1.attached = false
    ∧ CEvent.errorOut "Connection lost"
        ∈ (sendoutput ackDuring s output sendbreak).2 := by
  have h0 := h 0 (by omega)
  have h1 := h 1 (by omega)
  have h2 := h 2 (by omega)
  have h3 := h 3 (by omega)
  have hloop : (solRetryLoop ackDuring 5 true).1 = 0 := by
    simp [solRetryLoop, h0, h1, h2, h3]
  simp only [sendoutput, hloop, if_pos, printError]
  simp

end Pyghmi

namespace Pyghmi

/-- Witness for C9: with the acknowledgment arriving only during the fifth
window, the loop still exhausts its counter and the console still reports
`Connection lost`, even though `awaitingack` is already false at loop
exit. -/
theorem sendoutput_counter_exhaustion_witness :
    (sendoutput c9AckLate c9Console [] false).1.broken = true
    ∧ (sendoutput c9AckLate c9Console [] false).1.attached = false
    ∧ CEvent.errorOut "Connection lost" ∈ (sendoutput c9AckLate c9Console [] false).2
    ∧ (sendoutput c9AckLate c9Console [] false).1.awaitingack = false := by
  have h := sendoutput_counter_exhaustion c9AckLate c9Console [] false (by decide)
  exact ⟨h.1, h.2.1, h.2.2, by decide⟩

/-- C2 (counterexample): after the first Open Session Request, an
OPENSESSION `_timedout` does not retransmit the recorded request verbatim —
the freshly built request differs from it (its RMCP tag and local session
id are each one larger), because `_open_rmcpplus_request` increments
`localsid` and `rmcptag` anew. -/
theorem timedout_opensession_not_verbatim :
    c2AfterOpen.sessioncontext = SCtx.opensession
    ∧ c2AfterOpen.lastpayload = some c2FirstPayload
    ∧ xmittedPayloads (timedoutS c2AfterOpen 0).2 ≠ [c2FirstPayload]
    ∧ (timedoutS c2AfterOpen 0).1.localsid = c2AfterOpen.localsid + 1
    ∧ (timedoutS c2AfterOpen 0).1.rmcptag = c2AfterOpen.rmcptag + 1 := by
  refine ⟨rfl, rfl, ?_, ?_, ?_⟩ <;>
    norm_num +decide [timedoutS, c2AfterOpen, sessionBase, c2FirstPayload,
      openRmcpplusRequest, sendPayloadS, xmittedPayloads, le32, algoSha256]

/-- C2 (amended): when `_timedout` fires in OPENSESSION (within the retry
budget), the session discards `lastpayload` and sends a freshly crafted
Open Session Request whose RMCP tag and local session id are the old
values incremented by one; the retransmission is deliberately not
byte-for-byte identical to the previous request. -/
theorem timedout_opensession_fresh_request (s : SState) (p : List Nat)
    (rand : Rat)
    (hctx : s.sessioncontext = SCtx.opensession)
    (hlp : s.lastpayload = some p)
    (ht : ¬ s.timeout + 1 > s.maxtimeout) :
    (timedoutS s rand).1.localsid = s.localsid + 1
    ∧ (timedoutS s rand).1.rmcptag = s.rmcptag + 1
    ∧ (timedoutS s rand).2
      = [SEvent.xmit 16
          ([s.rmcptag + 1, 0, 0, 0] ++ le32 (s.localsid + 1)
            ++ (if s.attemptedhash = 1 then algoSha1 else algoSha256))
          s.sequencenumber]
    ∧ (timedoutS s rand).1.lastpayload
      = some ([s.rmcptag + 1, 0, 0, 0] ++ le32 (s.localsid + 1)
          ++ (if s.attemptedhash = 1 then algoSha1 else algoSha256)) := by
  by_cases hh : s.attemptedhash = 1 <;>
    simp [timedoutS, hlp, hctx, ht, openRmcpplusRequest, sendPayloadS, hh]

/-- Witness for C2 (amended) at the session state following the first Open
Session Request. -/
theorem timedout_opensession_fresh_request_witness :
    (timedoutS c2AfterOpen 0).1.localsid = c2AfterOpen.localsid + 1
    ∧ (timedoutS c2AfterOpen 0).1.rmcptag = c2AfterOpen.rmcptag + 1
    ∧ (timedoutS c2AfterOpen 0).2
      = [SEvent.xmit 16
          ([c2AfterOpen.rmcptag + 1, 0, 0, 0] ++ le32 (c2AfterOpen.localsid + 1)
            ++ (if c2AfterOpen.attemptedhash = 1 then algoSha1 else algoSha256))
          c2AfterOpen.sequencenumber] := by
  have h := timedout_opensession_fresh_request c2AfterOpen c2FirstPayload 0
    rfl rfl (by show ¬ ((1 : Rat)/2 + 1 > (3 : Rat)); norm_num)
  exact ⟨h.1, h.2.1, h.2.2.1⟩

/-- C3 (counterexample): at a current timeout of 2, `_timedout` sets the
timeout to 3, not to the doubled 4 — the code increments `self.timeout` by
1 rather than doubling it. -/
theorem timedout_does_not_double :
    c3Established.timeout = 2
    ∧ (timedoutS c3Established 0).1.timeout = 3
    ∧ (timedoutS c3Established 0).1.timeout ≠ 2 * c3Established.timeout := by
  have hgt : ¬ c3Established.timeout + 1 > c3Established.maxtimeout := by
    show ¬ ((2 : Rat) + 1 > (6 : Rat))
    norm_num
  have hev : (timedoutS c3Established 0).1.timeout = c3Established.timeout + 1 := by
    simp [timedoutS, hgt, sendPayloadS,
      show c3Established.lastpayload = some [32, 24, 196, 129, 4, 1, 118] from rfl,
      show c3Established.sessioncontext = SCtx.established from rfl]
  refine ⟨rfl, ?_, ?_⟩
  · rw [hev]
    show (2 : Rat) + 1 = 3
    norm_num
  · rw [hev]
    show (2 : Rat) + 1 ≠ 2 * 2
    norm_num

/-- C3 (amended): for an established session with a pending retried IPMI
command and maxtimeout 6, each `_timedout` increments `self.timeout` by 1;
when the grown timeout exceeds 6 the pending callback receives
`{error: timeout, code: 0xFFFF}` and the session is marked broken, and
otherwise the payload is retransmitted with `hasretried` recorded. -/
theorem timedout_established_budget (s : SState) (p : List Nat) (rand : Rat)
    (hctx : s.sessioncontext = SCtx.established)
    (hlp : s.lastpayload = some p)
    (hmax : s.maxtimeout = 6) :
    (timedoutS s rand).1.timeout = s.timeout + 1
    ∧ (s.timeout + 1 > 6 →
        (timedoutS s rand).2
          = SEvent.callback (some "timeout") 65535
            :: (if s.logged then [SEvent.logoutCmds] else [])
        ∧ (timedoutS s rand).1.broken = true)
    ∧ (¬ s.timeout + 1 > 6 →
        (timedoutS s rand).1.hasretried = true
        ∧ (timedoutS s rand).2
          = [SEvent.xmit (s.lastpayloadtype.getD 0) p s.sequencenumber]) := by
  by_cases hgt : s.timeout + 1 > 6
  · cases hslog : s.logged <;>
      simp [timedoutS, hlp, hctx, hmax, hgt, markBrokenS, hslog]
  · simp [timedoutS, hlp, hctx, hmax, hgt, sendPayloadS]

/-- Witness for C3 (amended) at the concrete established session with
timeout 2: the budget is not yet exhausted, so the payload is resent. -/
theorem timedout_established_budget_witness :
    (timedoutS c3Established 0).1.timeout = c3Established.timeout + 1
    ∧ (timedoutS c3Established 0).1.hasretried = true
    ∧ (timedoutS c3Established 0).2
      = [SEvent.xmit (c3Established.lastpayloadtype.getD 0)
          [32, 24, 196, 129, 4, 1, 118] c3Established.sequencenumber] := by
  have h := timedout_established_budget c3Established
    [32, 24, 196, 129, 4, 1, 118] 0 rfl rfl rfl
  have hb : ¬ c3Established.timeout + 1 > 6 := by
    show ¬ ((2 : Rat) + 1 > (6 : Rat))
    norm_num
  exact ⟨h.1, (h.2.2 hb).1, (h.2.2 hb).2⟩

end Pyghmi

namespace Pyghmi

/-- Sanity link for the C2 states: the concrete post-open state and payload
are exactly what `_open_rmcpplus_request` produces from a freshly
initialized session. -/
theorem c2AfterOpen_from_code :
    openRmcpplusRequest sessionBase = (c2AfterOpen, [SEvent.xmit 16 c2FirstPayload 0]) := by
  rfl

/-- From a positive start, the transmitted wire sequence numbers form the
arithmetic progression `range'`. -/
theorem wireSeqs_eq_range (n : Nat) :
    ∀ s : Nat, 1 ≤ s → wireSeqs s n = List.range' s n := by
  induction n with
  | zero => intro s hs; rfl
  | succ n ih =>
    intro s hs
    have hne : s ≠ 0 := by omega
    rw [List.range'_succ]
    show s :: wireSeqs (if s ≠ 0 then s + 1 else s) n = s :: List.range' (s + 1) n
    rw [if_pos hne, ih (s + 1) (by omega)]

/-- C6: for a session whose sequence number was committed to 1 at RAKP4
acceptance, every `_xmit_packet` with nonzero `sequencenumber` increments
it by exactly one, and the wire sequence numbers of any run of
transmissions starting from 1 are 1, 2, ..., n — strictly increasing and
pairwise distinct. -/
theorem established_sequence_increasing (s : SState) (n : Nat)
    (h : s.sequencenumber ≠ 0) :
    (xmitPacketStep s).sequencenumber = s.sequencenumber + 1
    ∧ wireSeqs 1 n = List.range' 1 n
    ∧ (wireSeqs 1 n).Pairwise (· < ·)
    ∧ (wireSeqs 1 n).Nodup := by
  refine ⟨by simp [xmitPacketStep, h], wireSeqs_eq_range n 1 (by omega), ?_, ?_⟩
  · rw [wireSeqs_eq_range n 1 (by omega)]
    exact List.pairwise_lt_range' 1 n
  · rw [wireSeqs_eq_range n 1 (by omega)]
    exact List.nodup_range' 1 n

/-- Witness for C6 at a concrete established session and a run of five
transmissions. -/
theorem established_sequence_increasing_witness :
    (xmitPacketStep c6Established).sequencenumber = c6Established.sequencenumber + 1
    ∧ wireSeqs 1 5 = [1, 2, 3, 4, 5]
    ∧ (wireSeqs 1 5).Pairwise (· < ·) := by
  have h := established_sequence_increasing c6Established 5 (by decide)
  exact ⟨h.1, by decide, h.2.2.1⟩

end Pyghmi

namespace Pyghmi

/-- C4: on a RAKP2 message with matching RMCP tag, matching local session
id and status 0, `_got_rakp2` computes the HMAC keyed by the password over
(localsid, pendingsessionid, randombytes, remoterandombytes, remoteguid,
nameonly|privlevel, userlen, userid) with the negotiated hash; if it
differs from the wire authentication code in any way the context becomes
FAILED, `onlogon` receives "Incorrect password provided" and no keys
(SIK/K1/K2/aeskey) are derived; if it matches, SIK, K1, K2 and the AES key
are derived and the context advances to EXPECTINGRAKP4. -/
theorem gotRakp2_hmac_verification
    (hmacF : Option HashKind → List Nat → List Nat → List Nat)
    (rand : Rat) (s : SState) (data : List Nat)
    (hctx : s.sessioncontext = SCtx.expectingrakp2)
    (htag : data.getD 0 0 = s.rmcptag)
    (hst : data.getD 1 0 = 0)
    (hsid : leRead32 ((data.drop 4).take 4) = s.localsid)
    (hsik : s.sik = none) (hk1 : s.k1 = none) (hk2 : s.k2 = none)
    (haes : s.aeskey = none) :
    ((data.drop 40).take (hmacF s.currhash s.password (rakp2Hmacdata s data)).length
        ≠ hmacF s.currhash s.password (rakp2Hmacdata s data) →
      (gotRakp2S hmacF rand s data).1.sessioncontext = SCtx.failed
      ∧ SEvent.logon (LogonMsg.failure "Incorrect password provided")
          ∈ (gotRakp2S hmacF rand s data).2
      ∧ (gotRakp2S hmacF rand s data).1.sik = none
      ∧ (gotRakp2S hmacF rand s data).1.k1 = none
      ∧ (gotRakp2S hmacF rand s data).1.k2 = none
      ∧ (gotRakp2S hmacF rand s data).1.aeskey = none)
    ∧ ((data.drop 40).take (hmacF s.currhash s.password (rakp2Hmacdata s data)).length
        = hmacF s.currhash s.password (rakp2Hmacdata s data) →
      (gotRakp2S hmacF rand s data).1.sik
        = some (hmacF s.currhash s.kg (sikHmacdata s data))
      ∧ (gotRakp2S hmacF rand s data).1.k1
        = some (hmacF s.currhash (hmacF s.currhash s.kg (sikHmacdata s data))
            (List.replicate 20 1))
      ∧ (gotRakp2S hmacF rand s data).1.k2
        = some (hmacF s.currhash (hmacF s.currhash s.kg (sikHmacdata s data))
            (List.replicate 20 2))
      ∧ (gotRakp2S hmacF rand s data).1.aeskey
        = some ((hmacF s.currhash (hmacF s.currhash s.kg (sikHmacdata s data))
            (List.replicate 20 2)).take 16)
      ∧ (gotRakp2S hmacF rand s data).1.sessioncontext = SCtx.expectingrakp4) := by
  simp only [List.getD_eq_getElem?_getD] at htag hst
  constructor
  · intro hgv
    simp only [rakp2Hmacdata, List.append_assoc, List.cons_append,
      List.nil_append] at hgv
    cases hl : s.logged <;>
      simp [gotRakp2S, hctx, htag, hst, hsid, hgv, onlogonS, markBrokenS, hsik,
        hk1, hk2, haes, hl]
  · intro hgv
    simp only [rakp2Hmacdata, List.append_assoc, List.cons_append,
      List.nil_append] at hgv
    simp [gotRakp2S, hctx, htag, hst, hsid, hgv, sendRakp3S, sendPayloadS,
      sikHmacdata]

end Pyghmi

namespace Pyghmi

/-- Witness for C4 at a concrete session, RAKP2 message and HMAC primitive
whose wire authentication code does not match. -/
theorem gotRakp2_hmac_verification_witness :
    (gotRakp2S hmacConcrete 0 c4Expecting c4BadRakp2).1.sessioncontext = SCtx.failed
    ∧ SEvent.logon (LogonMsg.failure "Incorrect password provided")
        ∈ (gotRakp2S hmacConcrete 0 c4Expecting c4BadRakp2).2
    ∧ (gotRakp2S hmacConcrete 0 c4Expecting c4BadRakp2).1.sik = none
    ∧ (gotRakp2S hmacConcrete 0 c4Expecting c4BadRakp2).1.aeskey = none := by
  have h := (gotRakp2_hmac_verification hmacConcrete 0 c4Expecting c4BadRakp2
    rfl (by decide) (by decide) (by decide) rfl rfl rfl rfl).1 (by decide)
  exact ⟨h.1, h.2.1, h.2.2.1, h.2.2.2.2.2⟩

/-- C8 (counterexample): at the very first read of a record (size 0xFF,
reservation id 0), a completion code 0xC5 leads to a retry that obtains no
new reservation at all — `get_sdr` only calls `get_sdr_reservation` when
`size != 0xff`, so the claim that 0xC5 always triggers a fresh reservation
via 0x0A/0x22 fails at this input. -/
theorem get_sdr_c5_fullsize_no_reservation :
    (sdrStep sdrInit 77 ⟨197, []⟩).state.rsvid = 0
    ∧ (sdrStep sdrInit 77 ⟨197, []⟩).flow = SdrFlow.again
    ∧ (sdrStep (sdrStep sdrInit 77 ⟨197, []⟩).state 77 ⟨0, [0, 1, 9, 9, 9, 9, 4]⟩).reservationRequested
      = false
    ∧ (sdrStep (sdrStep sdrInit 77 ⟨197, []⟩).state 77 ⟨0, [0, 1, 9, 9, 9, 9, 4]⟩).request
      = [0, 0, 0, 0, 0, 255] := by
  decide

/-- C8 (amended): in the record-fetch loop of `SDR.get_sdr`, a 0xCA reply
at size 0xFF makes the next attempt use size 5 at the same record id and
offset; a 0xCA reply at 5 < size < 0xFF makes the next attempt use
size/2 + 2, which also becomes the new chunk size, again at the same
record id and offset; a 0xC5 reply resets the reservation id to 0 and
retries the identical (record id, offset, size) request, obtaining a fresh
reservation via netfn 0x0A command 0x22 at the top of the retry iteration
provided size is not 0xFF (at size 0xFF the retry is issued with
reservation id 0 and no reservation command). -/
theorem get_sdr_code_handling (s : SdrState) (nrsv nrsv2 : Nat)
    (resp resp2 : SdrResp) :
    (resp.code = 202 → s.size = 255 →
      (sdrStep s nrsv resp).state.size = 5
      ∧ (sdrStep s nrsv resp).state.recid = s.recid
      ∧ (sdrStep s nrsv resp).state.offset = s.offset
      ∧ (sdrStep s nrsv resp).flow = SdrFlow.again)
    ∧ (resp.code = 202 → 5 < s.size → s.size < 255 →
      (sdrStep s nrsv resp).state.size = s.size / 2 + 2
      ∧ (sdrStep s nrsv resp).state.chunksize = s.size / 2 + 2
      ∧ (sdrStep s nrsv resp).state.recid = s.recid
      ∧ (sdrStep s nrsv resp).state.offset = s.offset
      ∧ (sdrStep s nrsv resp).flow = SdrFlow.again)
    ∧ (resp.code = 197 →
      (sdrStep s nrsv resp).state.rsvid = 0
      ∧ (sdrStep s nrsv resp).state.recid = s.recid
      ∧ (sdrStep s nrsv resp).state.offset = s.offset
      ∧ (sdrStep s nrsv resp).state.size = s.size
      ∧ (sdrStep s nrsv resp).flow = SdrFlow.again
      ∧ (s.size ≠ 255 →
          (sdrStep (sdrStep s nrsv resp).state nrsv2 resp2).reservationRequested = true
          ∧ (sdrStep (sdrStep s nrsv resp).state nrsv2 resp2).request
            = [nrsv2 % 256, nrsv2 / 256, s.recid % 256, s.recid / 256,
               s.offset, s.size])
      ∧ (s.size = 255 →
          (sdrStep (sdrStep s nrsv resp).state nrsv2 resp2).reservationRequested = false
          ∧ (sdrStep (sdrStep s nrsv resp).state nrsv2 resp2).request
            = [0, 0, s.recid % 256, s.recid / 256, s.offset, s.size])) := by
  refine ⟨?_, ?_, ?_⟩
  · intro hc hsz
    simp [sdrStep, hc, hsz]
  · intro hc h5 h255
    have hne : s.size ≠ 255 := by omega
    simp [sdrStep, hc, hne, h5]
  · intro hc
    have h1 : (sdrStep s nrsv resp).state.rsvid = 0
        ∧ (sdrStep s nrsv resp).state.recid = s.recid
        ∧ (sdrStep s nrsv resp).state.offset = s.offset
        ∧ (sdrStep s nrsv resp).state.size = s.size
        ∧ (sdrStep s nrsv resp).flow = SdrFlow.again := by
      simp [sdrStep, hc]
    obtain ⟨hr, hrec, hoff, hsz, hfl⟩ := h1
    refine ⟨hr, hrec, hoff, hsz, hfl, ?_, ?_⟩
    · intro hne
      revert hr hrec hoff hsz
      generalize (sdrStep s nrsv resp).state = t
      intro hr hrec hoff hsz
      simp [sdrStep, hr, hrec, hoff, hsz, hne]
    · intro heq
      revert hr hrec hoff hsz
      generalize (sdrStep s nrsv resp).state = t
      intro hr hrec hoff hsz
      simp [sdrStep, hr, hrec, hoff, hsz, heq]

end Pyghmi

namespace Pyghmi

/-- Witness for C8 (amended) at a mid-fetch state with an adapted size of
32: a 0xCA shrinks the size to 18, a 0xC5 resets the reservation and the
retry re-reserves and reissues the identical request. -/
theorem get_sdr_code_handling_witness :
    (sdrStep c8Partial 7 ⟨202, []⟩).state.size = 18
    ∧ (sdrStep c8Partial 7 ⟨202, []⟩).state.chunksize = 18
    ∧ (sdrStep c8Partial 7 ⟨202, []⟩).state.recid = c8Partial.recid
    ∧ (sdrStep c8Partial 7 ⟨202, []⟩).state.offset = c8Partial.offset
    ∧ (sdrStep c8Partial 7 ⟨202, []⟩).flow = SdrFlow.again
    ∧ (sdrStep c8Partial 7 ⟨197, []⟩).state.rsvid = 0
    ∧ (sdrStep (sdrStep c8Partial 7 ⟨197, []⟩).state 9 ⟨197, []⟩).reservationRequested
      = true
    ∧ (sdrStep (sdrStep c8Partial 7 ⟨197, []⟩).state 9 ⟨197, []⟩).request
      = [9, 0, 3, 0, 10, 32] := by
  have hca := (get_sdr_code_handling c8Partial 7 9 ⟨202, []⟩ ⟨202, []⟩).2.1
    rfl (by decide) (by decide)
  have hc5 := (get_sdr_code_handling c8Partial 7 9 ⟨197, []⟩ ⟨197, []⟩).2.2 rfl
  exact ⟨hca.1, hca.2.1, hca.2.2.1, hca.2.2.2.1, hca.2.2.2.2, hc5.1,
    (hc5.2.2.2.2.2.1 (by decide)).1, (hc5.2.2.2.2.2.1 (by decide)).2⟩

/-- Witness for C7 at a concrete five-byte input: the pad is
1..10 followed by the length byte 10, and the padded whole is a multiple
of 16 bytes. -/
theorem aespad_correct_witness :
    aespad [1, 2, 3, 4, 5] = [1, 2, 3, 4, 5, 6, 7, 8, 9, 10, 10]
    ∧ ([1, 2, 3, 4, 5] ++ aespad [1, 2, 3, 4, 5]).length % 16 = 0 := by
  have h := aespad_correct [1, 2, 3, 4, 5]
  exact ⟨h.1, h.2.2.2.2⟩

end Pyghmi
